import Mathlib

/-!
Verification of the Shipthis API Python client (`ShipthisAPI/shipthisapi.py`)
against its natural-language specification.

The client is a thin async HTTP facade.  We shallowly embed the parts of the
code the claims are about: decoded JSON values (Python's dynamically typed
values coming out of `response.json()`), Python truthiness, `dict` operations,
the header builder `_get_headers`, the response-classification tail of
`_make_request`, `connect`, the query-parameter builders of `create_item` and
`get_list`, the unwrap rules of `get_list` / `get_one_item`, and the
`upload_file` URL derivation and response handling.  The network call itself
is external to the code under verification; a response is modelled as the
status code, the raw body text and the result of attempting to JSON-decode
the body, and transport-level failures as an explicit sum.
-/

/-- A decoded JSON value, as produced by Python's `response.json()`.
Numbers are modelled as integers (no claim concerns floats); an object is an
association list with the (unique, in decoded JSON) keys in insertion order.
Python's `None` is `null`. -/
inductive Json where
  | null : Json
  | bool (b : Bool) : Json
  | num (n : Int) : Json
  | str (s : String) : Json
  | arr (elems : List Json) : Json
  | obj (fields : List (String × Json)) : Json

/-- Python truthiness of a decoded JSON value: `None`, `False`, `0`, `""`,
`[]` and `\x7b\x7d` are falsy, everything else truthy. -/
def Json.truthy : Json → Bool
  | .null => false
  | .bool b => b
  | .num n => n != 0
  | .str s => s != ""
  | .arr [] => false
  | .arr (_ :: _) => true
  | .obj [] => false
  | .obj (_ :: _) => true

/-- Whether the value is a Python `dict` (`isinstance(x, dict)`). -/
def Json.isObj : Json → Bool
  | .obj _ => true
  | _ => false

/-- Lookup in a Python `dict` modelled as an association list
(first binding wins; decoded JSON objects have unique keys). -/
def dictLookup (d : List (String × Json)) (k : String) : Option Json :=
  match d with
  | [] => none
  | (k1, v1) :: rest => if k1 = k then some v1 else dictLookup rest k

/-- Python `d.get(k, default)` on a `dict`. -/
def lookupD (d : List (String × Json)) (k : String) (default : Json) : Json :=
  match dictLookup d k with
  | some v => v
  | none => default

/-- Python `d[k] = v`: replace the value of an existing key in place,
otherwise append the new binding at the end. -/
def dictInsert : List (String × Json) → String → Json → List (String × Json)
  | [], k, v => [(k, v)]
  | (k1, v1) :: rest, k, v =>
      if k1 = k then (k, v) :: rest else (k1, v1) :: dictInsert rest k v

/-- Python `d.update(e)`: insert every binding of `e` into `d` in order. -/
def dictUpdate (d e : List (String × Json)) : List (String × Json) :=
  match e with
  | [] => d
  | (k, v) :: rest => dictUpdate (dictInsert d k v) rest

/-- Python string slicing `s[:n]` (first `n` characters). -/
def takeChars (n : Nat) (s : String) : String :=
  String.mk (s.data.take n)

/-- Escape quote and backslash characters for JSON string serialisation. -/
def jsonEscape : List Char → String
  | [] => ""
  | c :: rest =>
      (if c = '"' then "\\\"" else if c = '\\' then "\\\\" else String.mk [c]) ++
        jsonEscape rest

mutual

/-- Python `json.dumps` with default separators, for decoded JSON values.
String escaping beyond quote and backslash is elided (no claim depends on
the serialised text). -/
def jsonDumps : Json → String
  | .null => "null"
  | .bool true => "true"
  | .bool false => "false"
  | .num n => toString n
  | .str s => "\"" ++ jsonEscape s.data ++ "\""
  | .arr elems => "[" ++ jsonDumpsList elems ++ "]"
  | .obj fields => "\x7b" ++ jsonDumpsFields fields ++ "\x7d"

/-- Elements of a serialised JSON array, comma-separated. -/
def jsonDumpsList : List Json → String
  | [] => ""
  | [x] => jsonDumps x
  | x :: y :: rest => jsonDumps x ++ ", " ++ jsonDumpsList (y :: rest)

/-- Fields of a serialised JSON object, comma-separated. -/
def jsonDumpsFields : List (String × Json) → String
  | [] => ""
  | [(k, v)] => "\"" ++ jsonEscape k.data ++ "\": " ++ jsonDumps v
  | (k, v) :: f :: rest =>
      "\"" ++ jsonEscape k.data ++ "\": " ++ jsonDumps v ++ ", " ++
        jsonDumpsFields (f :: rest)

end

mutual

/-- Python `str()` rendering of a decoded JSON value (used only to build the
`details` of a `ShipthisRequestError` for non-2xx responses whose body is not
a mapping; string escaping is elided). -/
def pyStr : Json → String
  | .null => "None"
  | .bool true => "True"
  | .bool false => "False"
  | .num n => toString n
  | .str s => "'" ++ s ++ "'"
  | .arr elems => "[" ++ pyStrList elems ++ "]"
  | .obj fields => "\x7b" ++ pyStrFields fields ++ "\x7d"

/-- Elements of a Python-rendered list, comma-separated. -/
def pyStrList : List Json → String
  | [] => ""
  | [x] => pyStr x
  | x :: y :: rest => pyStr x ++ ", " ++ pyStrList (y :: rest)

/-- Fields of a Python-rendered dict, comma-separated. -/
def pyStrFields : List (String × Json) → String
  | [] => ""
  | [(k, v)] => "'" ++ k ++ "': " ++ pyStr v
  | (k, v) :: f :: rest => "'" ++ k ++ "': " ++ pyStr v ++ ", " ++ pyStrFields (f :: rest)

end

/-- An exception escaping one of the client's methods.  `authError` and
`requestError` mirror `ShipthisAuthError` / `ShipthisRequestError` with their
constructor arguments (`details` defaults to the empty dict); the remaining
constructors stand for the Python runtime errors the code can hit on
unexpected payload shapes (`AttributeError` from calling `.get` on a
non-dict, `TypeError`/`KeyError`/`IndexError` from subscripting). -/
inductive RaisedError where
  | authError (message : Json) (status_code : Nat) (details : Json)
  | requestError (message : Json) (status_code : Nat) (details : Json)
  | attributeError
  | typeError
  | keyError
  | indexError

/-- An HTTP response as seen by the client: status code, raw body text, and
the result of attempting to JSON-decode the body (`none` when
`response.json()` raises `json.JSONDecodeError`). -/
structure HttpResponse where
  status_code : Nat
  text : String
  jsonBody : Option Json

/-- `details` for the final catch-all error branch of `_make_request`:
the parsed body if it is a dict, else a dict wrapping its `str()`. -/
def detailsOf (result : Json) : Json :=
  match result with
  | .obj fields => .obj fields
  | other => .obj [("response", .str (pyStr other))]

/-- Response classification of `ShipthisAPI._make_request`
(`shipthisapi.py` lines 201-243), given the received response.  Mirrors the
source: 401/403 raise `ShipthisAuthError` before the body is parsed; a body
that fails to decode raises `ShipthisRequestError` with the first 200
characters of the raw text; on 200/201 the `success` flag decides between
returning the `data` field and raising `ShipthisRequestError` built from the
first error's message (or the envelope's `message`, or a fixed fallback)
with the whole envelope as `details`; any other status raises
`ShipthisRequestError` carrying that status. -/
def processResponse (r : HttpResponse) : Except RaisedError Json :=
  if r.status_code = 401 then
    .error (.authError (.str "Authentication failed. Check your API key.") 401 (.obj []))
  else if r.status_code = 403 then
    .error (.authError (.str "Access denied. Check your permissions.") 403 (.obj []))
  else
    match r.jsonBody with
    | none =>
        .error (.requestError (.str ("Invalid JSON response: " ++ takeChars 200 r.text))
          r.status_code (.obj []))
    | some result =>
        if r.status_code = 200 ∨ r.status_code = 201 then
          match result with
          | .obj fields =>
              if (lookupD fields "success" .null).truthy then
                .ok (lookupD fields "data" .null)
              else
                match lookupD fields "errors" (.arr []) with
                | .arr (e0 :: _) =>
                    match e0 with
                    | .obj efields =>
                        .error (.requestError (lookupD efields "message" (.str "Unknown error"))
                          r.status_code (.obj fields))
                    | _ => .error .attributeError
                | _ =>
                    .error (.requestError (lookupD fields "message" (.str "API call failed"))
                      r.status_code (.obj fields))
          | _ => .error .attributeError
        else
          .error (.requestError (.str ("Request failed with status " ++ toString r.status_code))
            r.status_code (detailsOf result))

/-- Outcome of the single `httpx` network call inside `_make_request`:
either a transport-level exception or a response. -/
inductive TransportResult where
  | timeout
  | connectError (msg : String)
  | genericError (msg : String)
  | response (r : HttpResponse)

/-- `ShipthisAPI._make_request` (lines 176-243): transport failures map to
`ShipthisRequestError` with status 408 (timeout) or 0, and a received
response is classified by `processResponse`. -/
def make_request (t : TransportResult) : Except RaisedError Json :=
  match t with
  | .timeout => .error (.requestError (.str "Request timed out") 408 (.obj []))
  | .connectError m => .error (.requestError (.str ("Connection error: " ++ m)) 0 (.obj []))
  | .genericError m => .error (.requestError (.str ("Request failed: " ++ m)) 0 (.obj []))
  | .response r => processResponse r

/-- The default base endpoint `ShipthisAPI.BASE_API_ENDPOINT`. -/
def BASE_API_ENDPOINT : String := "https://api.shipthis.co/api/v3/"

/-- The mutable per-instance state of a `ShipthisAPI` client.  The fields the
code can reassign to arbitrary decoded values (`x_api_key`, `region_id`,
`location_id`, `organisation_info`) are `Json`, with `null` standing for
Python's `None`; `custom_headers` is the dict supplied at construction. -/
structure ShipthisState where
  organisation_id : String
  x_api_key : Json
  user_type : String
  region_id : Json
  location_id : Json
  custom_headers : List (String × Json)
  organisation_info : Json
  is_connected : Bool

/-- `ShipthisAPI._get_headers` (lines 121-147): built-in defaults, then the
API key / region / location entries when truthy, then the construction-time
custom headers, then the per-call overrides (`none` models passing `None`).
The builder only reads the state. -/
def get_headers (st : ShipthisState) (override_headers : Option (List (String × Json))) :
    List (String × Json) :=
  let headers : List (String × Json) :=
    [("organisation", .str st.organisation_id),
     ("usertype", .str st.user_type),
     ("Content-Type", .str "application/json"),
     ("Accept", .str "application/json")]
  let headers := if st.x_api_key.truthy then dictInsert headers "x-api-key" st.x_api_key else headers
  let headers := if st.region_id.truthy then dictInsert headers "region" st.region_id else headers
  let headers := if st.location_id.truthy then dictInsert headers "location" st.location_id else headers
  let headers := dictUpdate headers st.custom_headers
  match override_headers with
  | none => headers
  | some [] => headers
  | some (e :: es) => dictUpdate headers (e :: es)

/-- Final step of `connect`: set `is_connected` and build the returned dict. -/
def connectFinish (st : ShipthisState) : Except RaisedError (ShipthisState × Json) :=
  let stc := { st with is_connected := true }
  .ok (stc, .obj [("region_id", stc.region_id), ("location_id", stc.location_id),
    ("organisation", stc.organisation_info)])

/-- `ShipthisAPI.connect` (lines 247-276), given the payload returned by the
info endpoint.  Stores `info.get("organisation")`; when region or location is
not set (not truthy) it takes the first region of the organisation's
`regions` list and the first location within it; marks the client connected
and returns the resolved region id, location id and organisation metadata.
Payload shapes on which the Python code would raise (`.get` on a non-dict,
subscripting a truthy non-list) map to the runtime-error constructors. -/
def connect (st : ShipthisState) (info : Json) : Except RaisedError (ShipthisState × Json) :=
  match info with
  | .obj ifields =>
    let orgInfo := lookupD ifields "organisation" .null
    let st1 := { st with organisation_info := orgInfo }
    if st1.region_id.truthy && st1.location_id.truthy then
      connectFinish st1
    else
      match orgInfo with
      | .obj ofields =>
        match lookupD ofields "regions" (.arr []) with
        | .arr (r0 :: _) =>
          match r0 with
          | .obj rfields =>
            let st2 := { st1 with region_id := lookupD rfields "region_id" .null }
            match lookupD rfields "locations" (.arr []) with
            | .arr (l0 :: _) =>
              match l0 with
              | .obj lfields =>
                  connectFinish { st2 with location_id := lookupD lfields "location_id" .null }
              | _ => .error .attributeError
            | .arr [] => connectFinish st2
            | locs => if locs.truthy then .error .typeError else connectFinish st2
          | _ => .error .attributeError
        | .arr [] => connectFinish st1
        | regs => if regs.truthy then .error .typeError else connectFinish st1
      | _ => .error .attributeError
  | _ => .error .attributeError

/-- Query parameters built by `ShipthisAPI.create_item` (lines 451-455):
a positive `replicate_count` is sent clamped to at most 100, and truthy
`input_filters` are JSON-encoded. -/
def create_item_query_params (replicate_count : Int) (input_filters : Option Json) :
    List (String × Json) :=
  let params : List (String × Json) := []
  let params :=
    if replicate_count > 0 then
      dictInsert params "replicate_count" (.num (min replicate_count 100))
    else params
  match input_filters with
  | some f => if f.truthy then dictInsert params "input_filters" (.str (jsonDumps f)) else params
  | none => params

/-- Python truthiness of an optional string argument (`None` and `""` falsy). -/
def pyOptStrTruthy : Option String → Bool
  | none => false
  | some s => s != ""

/-- Query parameters built by `ShipthisAPI.get_list` (lines 371-383). -/
def get_list_query_params (filters : Option Json) (search_query : Option String)
    (page count : Int) (only_fields : Option String) (sort : Option Json)
    (output_type : Option String) (meta : Bool) : List (String × Json) :=
  let params : List (String × Json) := [("page", .num page), ("count", .num count)]
  let params := match filters with
    | some f => if f.truthy then dictInsert params "query_filter_v2" (.str (jsonDumps f)) else params
    | none => params
  let params := if pyOptStrTruthy search_query then
      dictInsert params "search_query" (.str ((search_query).getD "")) else params
  let params := if pyOptStrTruthy only_fields then
      dictInsert params "only" (.str ((only_fields).getD "")) else params
  let params := match sort with
    | some s => if s.truthy then dictInsert params "multi_sort" (.str (jsonDumps s)) else params
    | none => params
  let params := if pyOptStrTruthy output_type then
      dictInsert params "output_type" (.str ((output_type).getD "")) else params
  if meta then params else dictInsert params "meta" (.str "false")

/-- The path requested by `ShipthisAPI.get_list` (line 386). -/
def get_list_path (collection_name : String) : String :=
  "incollection/" ++ collection_name

/-- Unwrap rule of `ShipthisAPI.get_list` (lines 389-391): a dict payload
yields its `items` field (empty list when absent), anything else the empty
list. -/
def get_list_unwrap (response : Json) : Json :=
  match response with
  | .obj fields => lookupD fields "items" (.arr [])
  | _ => .arr []

/-- `get_list` end to end: one dispatch through `_make_request` followed by
the unwrap rule (the collection name only affects the requested path). -/
def get_list_run (t : TransportResult) : Except RaisedError Json :=
  match make_request t with
  | .ok response => .ok (get_list_unwrap response)
  | .error e => .error e

/-- The path requested by `ShipthisAPI.get_one_item` (lines 319-334): with a
truthy document id a direct item path, otherwise the collection list path. -/
def get_one_item_path (collection_name : String) (doc_id : Option String) : String :=
  if pyOptStrTruthy doc_id then
    "incollection/" ++ collection_name ++ "/" ++ (doc_id).getD ""
  else
    "incollection/" ++ collection_name

/-- Unwrap rule of `ShipthisAPI.get_one_item` without a document id
(lines 336-338): `resp.get("items")[0]` when the payload is a dict with a
truthy `items` field, else Python `None`.  Subscripting a truthy non-list
`items` is reproduced exactly: a string yields its first character, a
non-empty dict raises `KeyError` (decoded JSON keys are strings, never the
integer 0), numbers and `True` raise `TypeError`. -/
def get_one_item_unwrap (resp : Json) : Except RaisedError Json :=
  match resp with
  | .obj fields =>
    match lookupD fields "items" .null with
    | .arr (x :: _) => .ok x
    | .arr [] => .ok .null
    | .null => .ok .null
    | .str s =>
      match s.data with
      | [] => .ok .null
      | c :: _ => .ok (.str (String.mk [c]))
    | .num n => if n = 0 then .ok .null else .error .typeError
    | .bool b => if b then .error .typeError else .ok .null
    | .obj [] => .ok .null
    | .obj (_ :: _) => .error .keyError
  | _ => .ok .null

/-- Bounded-check that the pattern occurs at the head of the text. -/
def matchesAt : List Char → List Char → Bool
  | [], _ => true
  | _ :: _, [] => false
  | p :: ps, c :: cs => p == c && matchesAt ps cs

/-- Python `str.replace` on character lists for a non-empty pattern
`p0 :: pt`: scan left to right, replacing every (non-overlapping) occurrence
of the pattern by `rep`. -/
def replaceAllAux (p0 : Char) (pt rep : List Char) : List Char → List Char
  | [] => []
  | c :: rest =>
      if matchesAt (p0 :: pt) (c :: rest) then
        rep ++ replaceAllAux p0 pt rep (rest.drop pt.length)
      else
        c :: replaceAllAux p0 pt rep rest
termination_by l => l.length
decreasing_by
  · simp only [List.length_cons]
    have := List.length_drop pt.length rest
    omega
  · simp

/-- Python `s.replace(pat, rep)` (all occurrences; the uses in the source
always pass a non-empty pattern). -/
def pyReplace (s pat rep : String) : String :=
  match pat.data with
  | [] => s
  | p0 :: pt => String.mk (replaceAllAux p0 pt rep.data s.data)

/-- Python `s.rstrip("/")`: drop every trailing slash. -/
def pyRstripSlash (s : String) : String :=
  String.mk ((s.data.reverse.dropWhile (fun c => c = '/')).reverse)

/-- The upload URL derivation of `ShipthisAPI.upload_file` (lines 979-981):
delete every occurrence of `"/api/v3/"` from the base endpoint, strip
trailing slashes, replace every occurrence of `"api."` by `"upload."`, and
append `"/api/v3/file-upload"`. -/
def upload_url_of (base_api_endpoint : String) : String :=
  let u := pyRstripSlash (pyReplace base_api_endpoint "/api/v3/" "")
  let u := pyReplace u "api." "upload."
  u ++ "/api/v3/file-upload"

/-- Split a character list at the first slash: the part before it and the
remainder (starting with the slash, when present). -/
def splitAtSlash : List Char → List Char × List Char
  | [] => ([], [])
  | c :: rest =>
      if c = '/' then ([], c :: rest)
      else
        let p := splitAtSlash rest
        (c :: p.1, p.2)

/-- Drop `pat` from the end of `s` when it is a suffix, else return `s`. -/
def removeSuffixStr (s pat : String) : String :=
  if matchesAt pat.data.reverse s.data.reverse then
    String.mk (s.data.take (s.data.length - pat.data.length))
  else s

/-- Modelled from the spec: the upload URL as claim C9 words it — remove the
`"/api/v3/"` suffix from the base endpoint, rewrite the host by replacing an
`"api."` prefix with `"upload."` (hosts not starting with `"api."` are left
unchanged), and append the fixed path `"api/v3/file-upload"`. -/
def c9ClaimedUploadUrl (base : String) : String :=
  let trimmed := removeSuffixStr base "/api/v3/"
  let rewritten :=
    if matchesAt "https://".data trimmed.data then
      let hostAndPath := trimmed.data.drop 8
      let host := (splitAtSlash hostAndPath).1
      let path := (splitAtSlash hostAndPath).2
      if matchesAt "api.".data host then
        String.mk ("https://".data ++ "upload.".data ++ host.drop 4 ++ path)
      else trimmed
    else trimmed
  rewritten ++ "/api/v3/file-upload"

/-- Outcome of the upload attempt inside `upload_file`: opening the file can
fail, the transport can fail, or a response arrives. -/
inductive UploadAttempt where
  | fileNotFound
  | transportError (msg : String)
  | response (r : HttpResponse)

/-- Response and error handling of `ShipthisAPI.upload_file`
(lines 987-1016): a missing file or transport error raises
`ShipthisRequestError` with status 0; an HTTP 200 response returns the
parsed JSON body, or — when the body does not parse — the dict
`\x7b"url": <raw text>\x7d` without raising; any other status raises
`ShipthisRequestError` carrying it. -/
def upload_file_model (file_path : String) (a : UploadAttempt) : Except RaisedError Json :=
  match a with
  | .fileNotFound =>
      .error (.requestError (.str ("File not found: " ++ file_path)) 0 (.obj []))
  | .transportError m =>
      .error (.requestError (.str ("Upload failed: " ++ m)) 0 (.obj []))
  | .response r =>
      if r.status_code = 200 then
        match r.jsonBody with
        | some j => .ok j
        | none => .ok (.obj [("url", .str r.text)])
      else
        .error (.requestError (.str ("Upload failed with status " ++ toString r.status_code))
          r.status_code (.obj []))

/-! ### Association-list (Python dict) lemmas -/

theorem dictLookup_dictInsert_self (d : List (String × Json)) (k : String) (v : Json) :
    dictLookup (dictInsert d k v) k = some v := by
  induction d with
  | nil => simp [dictInsert, dictLookup]
  | cons p rest ih =>
    obtain ⟨k1, v1⟩ := p
    by_cases h : k1 = k
    · simp [dictInsert, h, dictLookup]
    · simp [dictInsert, h, dictLookup, ih]

theorem dictLookup_dictInsert_ne (d : List (String × Json)) (k k' : String) (v : Json)
    (h : k' ≠ k) : dictLookup (dictInsert d k v) k' = dictLookup d k' := by
  have hk : ¬k = k' := fun hh => h hh.symm
  induction d with
  | nil => simp [dictInsert, dictLookup, hk]
  | cons p rest ih =>
    obtain ⟨k1, v1⟩ := p
    by_cases h1 : k1 = k
    · subst h1
      simp [dictInsert, dictLookup, hk]
    · simp [dictInsert, h1, dictLookup, ih]

theorem dictLookup_eq_none_of_not_mem (e : List (String × Json)) (k : String)
    (h : k ∉ e.map Prod.fst) : dictLookup e k = none := by
  induction e with
  | nil => rfl
  | cons p rest ih =>
    obtain ⟨k1, v1⟩ := p
    simp only [List.map_cons, List.mem_cons] at h
    push_neg at h
    have h1 : ¬k1 = k := fun hh => h.1 hh.symm
    simp only [dictLookup, if_neg h1]
    exact ih h.2

theorem dictLookup_dictUpdate_of_none (d e : List (String × Json)) (k : String)
    (h : dictLookup e k = none) : dictLookup (dictUpdate d e) k = dictLookup d k := by
  induction e generalizing d with
  | nil => rfl
  | cons p rest ih =>
    obtain ⟨k1, v1⟩ := p
    by_cases h1 : k1 = k
    · simp [dictLookup, h1] at h
    · simp only [dictLookup, h1, if_neg h1] at h
      rw [show dictUpdate d ((k1, v1) :: rest) = dictUpdate (dictInsert d k1 v1) rest from rfl,
        ih _ h, dictLookup_dictInsert_ne _ _ _ _ (fun hh => h1 hh.symm)]

theorem dictLookup_dictUpdate_of_some (d e : List (String × Json)) (k : String) (v : Json)
    (hnd : (e.map Prod.fst).Nodup) (h : dictLookup e k = some v) :
    dictLookup (dictUpdate d e) k = some v := by
  induction e generalizing d with
  | nil => cases h
  | cons p rest ih =>
    obtain ⟨k1, v1⟩ := p
    simp only [List.map_cons, List.nodup_cons] at hnd
    by_cases h1 : k1 = k
    · subst h1
      simp only [dictLookup, if_pos rfl] at h
      obtain rfl : v1 = v := by injection h
      rw [show dictUpdate d ((k1, v1) :: rest) = dictUpdate (dictInsert d k1 v1) rest from rfl,
        dictLookup_dictUpdate_of_none _ _ _ (dictLookup_eq_none_of_not_mem _ _ hnd.1),
        dictLookup_dictInsert_self]
    · simp only [dictLookup, if_neg h1] at h
      exact ih _ hnd.2 h

/-! ### Response classification: helper lemma -/

theorem processResponse_authError_status (r : HttpResponse) (m : Json) (s : Nat) (d : Json)
    (h : processResponse r = .error (.authError m s d)) :
    (r.status_code = 401 ∨ r.status_code = 403) ∧ s = r.status_code := by
  unfold processResponse at h
  split at h
  next h401 =>
    have hs := (RaisedError.authError.inj (Except.error.inj h)).2.1
    exact ⟨Or.inl h401, by omega⟩
  next h401 =>
    split at h
    next h403 =>
      have hs := (RaisedError.authError.inj (Except.error.inj h)).2.1
      exact ⟨Or.inr h403, by omega⟩
    next h403 =>
      exfalso
      split at h
      · simp at h
      · split at h
        · split at h
          · split at h
            · simp at h
            · split at h
              · split at h
                · simp at h
                · simp at h
              · simp at h
          · simp at h
        · simp at h

/-! ### Claim theorems -/

/-- C1: For every HTTP response with status 200 or 201 whose body parses as a
JSON mapping, `_make_request` returns the envelope's `data` field when the
`success` flag is truthy, and otherwise raises `ShipthisRequestError` whose
message is the first error object's `message` when the `errors` list is a
non-empty list (falling back to the envelope's `message` field with a generic
default otherwise), with the full envelope attached as `details`.  The header
builder has no side effects on the state, so the state is not a parameter
here. -/
theorem c1_make_request_envelope (status : Nat) (text : String)
    (fields : List (String × Json)) (hs : status = 200 ∨ status = 201) :
    ((lookupD fields "success" .null).truthy = true →
      make_request (.response ⟨status, text, some (.obj fields)⟩) =
        .ok (lookupD fields "data" .null))
    ∧ (∀ efields etail, (lookupD fields "success" .null).truthy = false →
        lookupD fields "errors" (.arr []) = .arr (Json.obj efields :: etail) →
        make_request (.response ⟨status, text, some (.obj fields)⟩) =
          .error (.requestError (lookupD efields "message" (.str "Unknown error")) status
            (.obj fields)))
    ∧ ((lookupD fields "success" .null).truthy = false →
        (∀ e0 etail, lookupD fields "errors" (.arr []) ≠ .arr (e0 :: etail)) →
        make_request (.response ⟨status, text, some (.obj fields)⟩) =
          .error (.requestError (lookupD fields "message" (.str "API call failed")) status
            (.obj fields))) := by
  refine ⟨?_, ?_, ?_⟩
  · intro hsucc
    rcases hs with h | h <;> subst h <;> simp [make_request, processResponse, hsucc]
  · intro efields etail hsucc herr
    rcases hs with h | h <;> subst h <;> simp [make_request, processResponse, hsucc, herr]
  · intro hsucc herr
    rcases hE : lookupD fields "errors" (.arr []) with _ | b | n | sx | elems | g
    case arr =>
      rcases elems with _ | ⟨e0, tl⟩
      · rcases hs with h | h <;> subst h <;> simp [make_request, processResponse, hsucc, hE]
      · exact absurd hE (herr e0 tl)
    all_goals rcases hs with h | h <;> subst h <;>
      simp [make_request, processResponse, hsucc, hE]

/-- Witness for C1: the three branches at concrete envelopes — a successful
envelope returns its `data`, a `success:false` envelope with an errors list
raises with the first error's message and the envelope as details, and one
with no errors list falls back to the envelope's `message` field. -/
theorem c1_make_request_envelope_witness :
    make_request (.response ⟨200, "",
        some (.obj [("success", .bool true), ("data", .num 7)])⟩) = .ok (.num 7)
    ∧ make_request (.response ⟨200, "",
        some (.obj [("success", .bool false),
          ("errors", .arr [.obj [("message", .str "boom")]])])⟩) =
      .error (.requestError (.str "boom") 200
        (.obj [("success", .bool false), ("errors", .arr [.obj [("message", .str "boom")]])]))
    ∧ make_request (.response ⟨201, "",
        some (.obj [("success", .bool false), ("message", .str "nope")])⟩) =
      .error (.requestError (.str "nope") 201
        (.obj [("success", .bool false), ("message", .str "nope")])) :=
  ⟨(c1_make_request_envelope 200 "" _ (Or.inl rfl)).1 (by rfl),
   (c1_make_request_envelope 200 "" _ (Or.inl rfl)).2.1 [("message", .str "boom")] []
     (by rfl) (by rfl),
   (c1_make_request_envelope 201 "" _ (Or.inr rfl)).2.2 (by rfl)
     (by intro e0 t hx; simp [lookupD, dictLookup] at hx)⟩

/-- C3: every response with status 401 or 403 makes `_make_request` raise
`ShipthisAuthError` carrying that status — independently of the body text and
of whether the body parses, i.e. before any JSON parsing is consulted — and
no other transport outcome or status code ever produces a
`ShipthisAuthError`. -/
theorem c3_auth_error_classification :
    (∀ (text : String) (body : Option Json),
      make_request (.response ⟨401, text, body⟩) =
        .error (.authError (.str "Authentication failed. Check your API key.") 401 (.obj [])))
    ∧ (∀ (text : String) (body : Option Json),
      make_request (.response ⟨403, text, body⟩) =
        .error (.authError (.str "Access denied. Check your permissions.") 403 (.obj [])))
    ∧ (∀ (t : TransportResult) (m : Json) (s : Nat) (d : Json),
        make_request t = .error (.authError m s d) →
        ∃ r, t = .response r ∧ (r.status_code = 401 ∨ r.status_code = 403)
          ∧ s = r.status_code) := by
  refine ⟨?_, ?_, ?_⟩
  · intro text body
    simp [make_request, processResponse]
  · intro text body
    simp [make_request, processResponse]
  · intro t m s d h
    cases t with
    | timeout => simp [make_request] at h
    | connectError msg => simp [make_request] at h
    | genericError msg => simp [make_request] at h
    | response r =>
      exact ⟨r, rfl, processResponse_authError_status r m s d h⟩

/-- Witness for C3: the third part applied to a concrete 401 response. -/
theorem c3_auth_error_classification_witness :
    ∃ r, TransportResult.response ⟨401, "denied", none⟩ = TransportResult.response r
      ∧ (r.status_code = 401 ∨ r.status_code = 403) ∧ 401 = r.status_code :=
  c3_auth_error_classification.2.2 (.response ⟨401, "denied", none⟩)
    (.str "Authentication failed. Check your API key.") 401 (.obj []) (by rfl)

/-- C8: a response whose status is not 401/403 and whose body does not parse
as JSON makes `_make_request` raise `ShipthisRequestError` whose message is
the fixed text followed by the first 200 characters of the raw body, carrying
the response's status code. -/
theorem c8_invalid_json_response (s : Nat) (t : String) (h1 : s ≠ 401) (h2 : s ≠ 403) :
    make_request (.response ⟨s, t, none⟩) =
      .error (.requestError (.str ("Invalid JSON response: " ++ takeChars 200 t)) s
        (.obj [])) := by
  simp [make_request, processResponse, h1, h2]

/-- Witness for C8: a simulated non-JSON 200 body yields the request error
referencing the raw text. -/
theorem c8_invalid_json_response_witness :
    make_request (.response ⟨200, "<html>oops", none⟩) =
      .error (.requestError (.str "Invalid JSON response: <html>oops") 200 (.obj [])) := by
  have h := c8_invalid_json_response 200 "<html>oops" (by decide) (by decide)
  simpa [takeChars] using h

/-- C2: in the header set built by `_get_headers`, a key present in the
per-call overrides gets its override value, and a key present in the
construction-time custom headers but absent from the overrides gets its
custom-header value — beating the built-in defaults and the API key /
region / location entries, whatever the configuration.  (The Nodup
hypotheses hold for any Python dict; the builder itself is a pure function
of the state, so it has no side effects on the configuration.) -/
theorem c2_get_headers_precedence (st : ShipthisState)
    (o : List (String × Json)) (k : String) :
    ((o.map Prod.fst).Nodup → ∀ w, dictLookup o k = some w →
      dictLookup (get_headers st (some o)) k = some w)
    ∧ ((st.custom_headers.map Prod.fst).Nodup → dictLookup o k = none →
      ∀ v, dictLookup st.custom_headers k = some v →
      dictLookup (get_headers st (some o)) k = some v) := by
  constructor
  · intro hnd w hw
    rcases o with _ | ⟨e, es⟩
    · cases hw
    · exact dictLookup_dictUpdate_of_some _ _ _ _ hnd hw
  · intro hndc ho v hv
    rcases o with _ | ⟨e, es⟩
    · exact dictLookup_dictUpdate_of_some _ _ _ _ hndc hv
    · show dictLookup (dictUpdate (dictUpdate _ st.custom_headers) (e :: es)) k = some v
      rw [dictLookup_dictUpdate_of_none _ _ _ ho]
      exact dictLookup_dictUpdate_of_some _ _ _ _ hndc hv

/-- Witness for C2: a concrete configuration where the override rewrites
`Accept` and a custom header rewrites `Content-Type`. -/
theorem c2_get_headers_precedence_witness :
    dictLookup (get_headers
        ⟨"org1", .str "key1", "employee", .null, .null,
          [("Content-Type", .str "text/xml")], .null, false⟩
        (some [("Accept", .str "text/csv")])) "Accept" = some (.str "text/csv")
    ∧ dictLookup (get_headers
        ⟨"org1", .str "key1", "employee", .null, .null,
          [("Content-Type", .str "text/xml")], .null, false⟩
        (some [("Accept", .str "text/csv")])) "Content-Type" = some (.str "text/xml") :=
  ⟨(c2_get_headers_precedence _ [("Accept", .str "text/csv")] "Accept").1
      (by decide) _ (by rfl),
   (c2_get_headers_precedence _ [("Accept", .str "text/csv")] "Content-Type").2
      (by decide) (by rfl) _ (by rfl)⟩

/-- C5: `create_item` sends `replicate_count` clamped to 100 when the
requested count exceeds 100; in range it is sent unchanged, and a
non-positive request sends no `replicate_count` parameter at all. -/
theorem c5_replicate_count_clamped (replicate_count : Int) (input_filters : Option Json) :
    (100 < replicate_count →
      dictLookup (create_item_query_params replicate_count input_filters) "replicate_count"
        = some (.num 100))
    ∧ (0 < replicate_count → replicate_count ≤ 100 →
      dictLookup (create_item_query_params replicate_count input_filters) "replicate_count"
        = some (.num replicate_count))
    ∧ (replicate_count ≤ 0 →
      dictLookup (create_item_query_params replicate_count input_filters) "replicate_count"
        = none) := by
  refine ⟨?_, ?_, ?_⟩
  · intro h
    have hpos : replicate_count > 0 := by omega
    have hmin : min replicate_count 100 = 100 := min_eq_right (by omega)
    rcases input_filters with _ | f
    · simp [create_item_query_params, hpos, hmin, dictLookup]
    · by_cases ht : f.truthy <;>
        simp [create_item_query_params, hpos, hmin, ht, dictInsert, dictLookup]
  · intro h1 h2
    have hmin : min replicate_count 100 = replicate_count := min_eq_left h2
    rcases input_filters with _ | f
    · simp [create_item_query_params, h1, hmin, dictLookup]
    · by_cases ht : f.truthy <;>
        simp [create_item_query_params, h1, hmin, ht, dictInsert, dictLookup]
  · intro h
    have hpos : ¬replicate_count > 0 := by omega
    rcases input_filters with _ | f
    · simp [create_item_query_params, hpos, dictLookup]
    · by_cases ht : f.truthy <;>
        simp [create_item_query_params, hpos, ht, dictInsert, dictLookup]

/-- Witness for C5: a request for 150 replicas is dispatched with
`replicate_count = 100`, one for 7 with 7, one for 0 with no parameter. -/
theorem c5_replicate_count_clamped_witness :
    dictLookup (create_item_query_params 150 none) "replicate_count" = some (.num 100)
    ∧ dictLookup (create_item_query_params 7 none) "replicate_count" = some (.num 7)
    ∧ dictLookup (create_item_query_params 0 none) "replicate_count" = none :=
  ⟨(c5_replicate_count_clamped 150 none).1 (by decide),
   (c5_replicate_count_clamped 7 none).2.1 (by decide) (by decide),
   (c5_replicate_count_clamped 0 none).2.2 (by decide)⟩

/-- C6: when the data payload returned for a list fetch is a mapping,
`get_list` returns its `items` field (empty list when absent); when it is
not a mapping it returns the empty list; and the concrete scenario
`\x7b"success":true,"data":\x7b"items":[\x7b"_id":"1"\x7d]\x7d\x7d` yields
`[\x7b"_id":"1"\x7d]`. -/
theorem c6_get_list_items (text : String) (fields : List (String × Json)) :
    (∀ ds, (lookupD fields "success" .null).truthy = true →
      lookupD fields "data" .null = .obj ds →
      get_list_run (.response ⟨200, text, some (.obj fields)⟩) =
        .ok (lookupD ds "items" (.arr [])))
    ∧ ((lookupD fields "success" .null).truthy = true →
      (lookupD fields "data" .null).isObj = false →
      get_list_run (.response ⟨200, text, some (.obj fields)⟩) = .ok (.arr []))
    ∧ get_list_run (.response ⟨200, "",
        some (.obj [("success", .bool true),
          ("data", .obj [("items", .arr [.obj [("_id", .str "1")]])])])⟩) =
      .ok (.arr [.obj [("_id", .str "1")]]) := by
  refine ⟨?_, ?_, rfl⟩
  · intro ds hsucc hd
    simp [get_list_run, make_request, processResponse, hsucc, hd, get_list_unwrap]
  · intro hsucc hobj
    rcases hd : lookupD fields "data" .null with _ | b | n | sx | elems | ds
    case obj => rw [hd] at hobj; simp [Json.isObj] at hobj
    all_goals simp [get_list_run, make_request, processResponse, hsucc, hd, get_list_unwrap]

/-- Witness for C6: the general mapping and non-mapping cases at concrete
envelopes. -/
theorem c6_get_list_items_witness :
    get_list_run (.response ⟨200, "",
        some (.obj [("success", .bool true), ("data", .obj [("extra", .num 1)])])⟩) =
      .ok (.arr [])
    ∧ get_list_run (.response ⟨200, "",
        some (.obj [("success", .bool true), ("data", .arr [.num 1])])⟩) = .ok (.arr []) :=
  ⟨(c6_get_list_items "" [("success", .bool true), ("data", .obj [("extra", .num 1)])]).1
      [("extra", .num 1)] (by rfl) (by rfl),
   (c6_get_list_items "" [("success", .bool true), ("data", .arr [.num 1])]).2.1
      (by rfl) (by rfl)⟩

/-- C7: without a truthy document id `get_one_item` targets the collection
list path and unwraps to the first element of the `items` field — Python
`None` when the items are missing, empty, or the payload is not a mapping —
while a truthy document id targets the direct item path
`incollection/collection/id`. -/
theorem c7_get_one_item_first_or_none (collection_name : String) :
    (∀ doc_id, pyOptStrTruthy doc_id = false →
      get_one_item_path collection_name doc_id = "incollection/" ++ collection_name)
    ∧ (∀ s, s ≠ "" →
      get_one_item_path collection_name (some s) =
        "incollection/" ++ collection_name ++ "/" ++ s)
    ∧ (∀ fields x tail, lookupD fields "items" .null = .arr (x :: tail) →
      get_one_item_unwrap (.obj fields) = .ok x)
    ∧ (∀ fields, (lookupD fields "items" .null).truthy = false →
      get_one_item_unwrap (.obj fields) = .ok .null)
    ∧ (∀ resp : Json, resp.isObj = false → get_one_item_unwrap resp = .ok .null) := by
  refine ⟨?_, ?_, ?_, ?_, ?_⟩
  · intro doc_id h
    simp [get_one_item_path, h]
  · intro s h
    simp [get_one_item_path, pyOptStrTruthy, h]
  · intro fields x tail h
    simp [get_one_item_unwrap, h]
  · intro fields h
    rcases hI : lookupD fields "items" .null with _ | b | n | sx | elems | gs <;>
      rw [hI] at h
    case bool => cases b <;> simp_all [get_one_item_unwrap, Json.truthy]
    case num =>
      have : n = 0 := by simpa [Json.truthy] using h
      simp [get_one_item_unwrap, hI, this]
    case str =>
      have hs : sx = "" := by simpa [Json.truthy] using h
      subst hs
      simp [get_one_item_unwrap, hI]
    case arr =>
      rcases elems with _ | ⟨e, tl⟩
      · simp [get_one_item_unwrap, hI]
      · simp [Json.truthy] at h
    case obj =>
      rcases gs with _ | ⟨g, tl⟩
      · simp [get_one_item_unwrap, hI]
      · simp [Json.truthy] at h
    case null => simp [get_one_item_unwrap, hI]
  · intro resp h
    rcases resp with _ | b | n | sx | elems | gs <;> simp_all [get_one_item_unwrap, Json.isObj]

/-- Witness for C7: concrete path and unwrap evaluations — no id, an id,
one item, no items, and a non-mapping payload. -/
theorem c7_get_one_item_first_or_none_witness :
    get_one_item_path "invoice" none = "incollection/invoice"
    ∧ get_one_item_path "invoice" (some "id9") = "incollection/invoice/id9"
    ∧ get_one_item_unwrap (.obj [("items", .arr [.obj [("_id", .str "1")], .num 2])]) =
        .ok (.obj [("_id", .str "1")])
    ∧ get_one_item_unwrap (.obj [("items", .arr [])]) = .ok .null
    ∧ get_one_item_unwrap (.arr [.num 3]) = .ok .null :=
  ⟨(c7_get_one_item_first_or_none "invoice").1 none (by rfl),
   (c7_get_one_item_first_or_none "invoice").2.1 "id9" (by decide),
   (c7_get_one_item_first_or_none "invoice").2.2.1 _ _ [.num 2] (by rfl),
   (c7_get_one_item_first_or_none "invoice").2.2.2.1 [("items", .arr [])] (by rfl),
   (c7_get_one_item_first_or_none "invoice").2.2.2.2 (.arr [.num 3]) (by rfl)⟩

/-- C4: `connect` stores the organisation metadata from the info payload and
marks the client connected; when region or location is not set it selects the
first region of the organisation's region list and the first location within
it, and it returns the resolved region id, location id and organisation
metadata. -/
theorem c4_connect_selects_first_region (st : ShipthisState)
    (ifields ofields rfields lfields : List (String × Json))
    (rtail ltail : List Json) :
    ((st.region_id.truthy && st.location_id.truthy) = false →
      lookupD ifields "organisation" .null = .obj ofields →
      lookupD ofields "regions" (.arr []) = .arr (.obj rfields :: rtail) →
      lookupD rfields "locations" (.arr []) = .arr (.obj lfields :: ltail) →
      connect st (.obj ifields) =
        .ok ({ st with
            organisation_info := .obj ofields
            region_id := lookupD rfields "region_id" .null
            location_id := lookupD lfields "location_id" .null
            is_connected := true },
          .obj [("region_id", lookupD rfields "region_id" .null),
            ("location_id", lookupD lfields "location_id" .null),
            ("organisation", .obj ofields)]))
    ∧ (st.region_id.truthy = true → st.location_id.truthy = true →
      connect st (.obj ifields) =
        .ok ({ st with
            organisation_info := lookupD ifields "organisation" .null
            is_connected := true },
          .obj [("region_id", st.region_id), ("location_id", st.location_id),
            ("organisation", lookupD ifields "organisation" .null)])) := by
  obtain ⟨a1, a2, a3, a4, a5, a6, a7, a8⟩ := st
  constructor
  · intro hunset horg hregs hlocs
    simp only [connect, connectFinish, horg, hregs, hlocs]
    simp [hunset]
  · intro hr hl
    simp [connect, connectFinish, hr, hl]

/-- Witness for C4: the spec scenario — an organisation whose regions are
`[\x7b"region_id":"usa","locations":[\x7b"location_id":"ny"\x7d]\x7d]` and no
pre-set region resolves region `"usa"` and location `"ny"`. -/
theorem c4_connect_selects_first_region_witness :
    connect ⟨"org1", .null, "employee", .null, .null, [], .null, false⟩
      (.obj [("organisation", .obj [("regions", .arr [.obj [("region_id", .str "usa"),
        ("locations", .arr [.obj [("location_id", .str "ny")]])]])])]) =
    .ok (⟨"org1", .null, "employee", .str "usa", .str "ny", [],
        .obj [("regions", .arr [.obj [("region_id", .str "usa"),
          ("locations", .arr [.obj [("location_id", .str "ny")]])]])], true⟩,
      .obj [("region_id", .str "usa"), ("location_id", .str "ny"),
        ("organisation", .obj [("regions", .arr [.obj [("region_id", .str "usa"),
          ("locations", .arr [.obj [("location_id", .str "ny")]])]])])]) :=
  (c4_connect_selects_first_region
      ⟨"org1", .null, "employee", .null, .null, [], .null, false⟩
      [("organisation", .obj [("regions", .arr [.obj [("region_id", .str "usa"),
        ("locations", .arr [.obj [("location_id", .str "ny")]])]])])]
      [("regions", .arr [.obj [("region_id", .str "usa"),
        ("locations", .arr [.obj [("location_id", .str "ny")]])]])]
      [("region_id", .str "usa"), ("locations", .arr [.obj [("location_id", .str "ny")]])]
      [("location_id", .str "ny")] [] []).1
    (by rfl) (by rfl) (by rfl) (by rfl)

/-- C10: an `upload_file` call that gets an HTTP 200 response with a
non-JSON body does not raise — it returns `\x7b"url": <raw text>\x7d` —
whereas the main dispatcher raises `ShipthisRequestError` on the same
response; `upload_file` itself raises only for a missing file, a transport
error, or a non-200 status. -/
theorem c10_upload_200_non_json_returns_url (file_path : String) :
    (∀ text : String,
      upload_file_model file_path (.response ⟨200, text, none⟩) =
        .ok (.obj [("url", .str text)]))
    ∧ (∀ (a : UploadAttempt) (e : RaisedError), upload_file_model file_path a = .error e →
        a = .fileNotFound ∨ (∃ m, a = .transportError m)
          ∨ (∃ r, a = .response r ∧ r.status_code ≠ 200))
    ∧ (∀ text : String,
      make_request (.response ⟨200, text, none⟩) =
        .error (.requestError (.str ("Invalid JSON response: " ++ takeChars 200 text)) 200
          (.obj []))) := by
  refine ⟨?_, ?_, ?_⟩
  · intro text
    simp [upload_file_model]
  · intro a e h
    cases a with
    | fileNotFound => exact Or.inl rfl
    | transportError m => exact Or.inr (Or.inl ⟨m, rfl⟩)
    | response r =>
      refine Or.inr (Or.inr ⟨r, rfl, ?_⟩)
      intro h200
      rcases hb : r.jsonBody with _ | j <;>
        simp [upload_file_model, h200, hb] at h
  · intro text
    simp [make_request, processResponse]

/-- Witness for C10: a 404 upload response is classified as a non-200
response by the error characterisation. -/
theorem c10_upload_200_non_json_returns_url_witness :
    UploadAttempt.response ⟨404, "", none⟩ = UploadAttempt.fileNotFound
    ∨ (∃ m, UploadAttempt.response ⟨404, "", none⟩ = UploadAttempt.transportError m)
    ∨ (∃ r, UploadAttempt.response ⟨404, "", none⟩ = UploadAttempt.response r
        ∧ r.status_code ≠ 200) :=
  (c10_upload_200_non_json_returns_url "f.txt").2.1 (.response ⟨404, "", none⟩)
    (.requestError (.str ("Upload failed with status " ++ toString (404 : Nat))) 404 (.obj []))
    (by rfl)

/-! ### String-rewriting lemmas for the upload URL derivation -/

theorem stringDataEq (s t : String) (h : s.data = t.data) : s = t := by
  cases s; cases t; simp_all

theorem matchesAt_self_append (l s : List Char) : matchesAt l (l ++ s) = true := by
  induction l with
  | nil => rfl
  | cons c l' ih => simp [matchesAt, ih]

theorem replaceAllAux_skip (p0 : Char) (pt rep l suffix : List Char)
    (h : ∀ c ∈ l, c ≠ p0) :
    replaceAllAux p0 pt rep (l ++ suffix) = l ++ replaceAllAux p0 pt rep suffix := by
  induction l with
  | nil => simp
  | cons c l' ih =>
    have hc : ¬p0 = c := fun hh => (h c (by simp)) hh.symm
    have hm : matchesAt (p0 :: pt) (c :: (l' ++ suffix)) = false := by
      simp [matchesAt, hc]
    simp only [List.cons_append, replaceAllAux, hm, Bool.false_eq_true, if_false]
    rw [ih (fun d hd => h d (by simp [hd]))]

theorem replaceAllAux_consume (p0 : Char) (pt rep suffix : List Char) :
    replaceAllAux p0 pt rep ((p0 :: pt) ++ suffix) = rep ++ replaceAllAux p0 pt rep suffix := by
  have hm : matchesAt (p0 :: pt) ((p0 :: pt) ++ suffix) = true := matchesAt_self_append _ _
  simp only [List.cons_append] at hm ⊢
  simp only [replaceAllAux, hm, if_true]
  rw [List.drop_left]

theorem pyReplace_eq_of_data (s pat rep : String) (p0 : Char) (pt : List Char)
    (hp : pat.data = p0 :: pt) :
    pyReplace s pat rep = String.mk (replaceAllAux p0 pt rep.data s.data) := by
  simp [pyReplace, hp]

theorem pyRstripSlash_of_last_not_slash (l : List Char) (c : Char) (h : ¬c = '/') :
    pyRstripSlash (String.mk (l ++ [c])) = String.mk (l ++ [c]) := by
  simp [pyRstripSlash, List.dropWhile_cons, h]

/-- C9 counterexample: the code replaces the substring `"api."` everywhere in
the URL, not only as a host prefix.  For the configured base endpoint
`https://data-api.example.com/api/v3/` — whose host does not start with
`"api."` — the code targets `https://data-upload.example.com/...`, while the
claim's derivation (remove the `/api/v3/` suffix, rewrite only an `"api."`
host prefix, append the fixed path) leaves the host unchanged. -/
theorem c9_upload_url_counterexample :
    upload_url_of "https://data-api.example.com/api/v3/" =
      "https://data-upload.example.com/api/v3/file-upload"
    ∧ c9ClaimedUploadUrl "https://data-api.example.com/api/v3/" =
      "https://data-api.example.com/api/v3/file-upload"
    ∧ upload_url_of "https://data-api.example.com/api/v3/" ≠
      c9ClaimedUploadUrl "https://data-api.example.com/api/v3/" := by
  refine ⟨?_, by decide, ?_⟩
  · simp [upload_url_of, pyReplace, pyRstripSlash, replaceAllAux, matchesAt]
  · intro hcontra
    have h1 : upload_url_of "https://data-api.example.com/api/v3/" =
        "https://data-upload.example.com/api/v3/file-upload" := by
      simp [upload_url_of, pyReplace, pyRstripSlash, replaceAllAux, matchesAt]
    have h2 : c9ClaimedUploadUrl "https://data-api.example.com/api/v3/" =
        "https://data-api.example.com/api/v3/file-upload" := by decide
    rw [h1, h2] at hcontra
    exact absurd hcontra (by decide)

/-- C9 (amended): the upload URL is the base endpoint with every occurrence
of the substring `"/api/v3/"` deleted, trailing slashes stripped, every
occurrence of the substring `"api."` (anywhere in the URL, not only as a
host prefix) replaced by `"upload."`, and `"/api/v3/file-upload"` appended.
For base endpoints `https://api.<rest>/api/v3/` whose `<rest>` part shares
no character with the two patterns this realises the claimed host rewrite,
and in particular the default base endpoint
`https://api.shipthis.co/api/v3/` yields
`https://upload.shipthis.co/api/v3/file-upload`. -/
theorem c9_upload_url_amended :
    (∀ rest : String, (∀ c ∈ rest.data, c ∉ ['/', '.', 'a', 'p', 'i', 'v', '3']) →
      upload_url_of ("https://api." ++ rest ++ "/api/v3/") =
        "https://upload." ++ rest ++ "/api/v3/file-upload")
    ∧ upload_url_of BASE_API_ENDPOINT = "https://upload.shipthis.co/api/v3/file-upload" := by
  constructor
  · intro rest h
    have hs : ∀ c ∈ rest.data, c ≠ '/' := fun c hc hh => h c hc (by simp [hh])
    have ha : ∀ c ∈ rest.data, c ≠ 'a' := fun c hc hh => h c hc (by simp [hh])
    have hstep : ∀ t : List Char,
        replaceAllAux '/' ("api/v3/" : String).data [] (("https://api." : String).data ++ t) =
          ("https://api." : String).data ++ replaceAllAux '/' ("api/v3/" : String).data [] t := by
      intro t
      simp [replaceAllAux, matchesAt]
    have hdata : ("https://api." ++ rest ++ "/api/v3/").data =
        ("https://api." : String).data ++ (rest.data ++ ("/api/v3/" : String).data) := by
      simp
    have h1 : pyReplace ("https://api." ++ rest ++ "/api/v3/") "/api/v3/" "" =
        String.mk (("https://api." : String).data ++ rest.data) := by
      rw [pyReplace_eq_of_data _ _ _ '/' ("api/v3/" : String).data rfl]
      congr 1
      rw [hdata, show ("" : String).data = ([] : List Char) from rfl, hstep]
      congr 1
      rw [replaceAllAux_skip _ _ _ _ _ hs]
      rw [show ("/api/v3/" : String).data =
        ('/' :: ("api/v3/" : String).data) ++ ([] : List Char) by simp]
      rw [replaceAllAux_consume]
      simp [replaceAllAux]
    have h2 : pyRstripSlash (String.mk (("https://api." : String).data ++ rest.data)) =
        String.mk (("https://api." : String).data ++ rest.data) := by
      rcases List.eq_nil_or_concat rest.data with hnil | ⟨l', c, hcat⟩
      · rw [hnil, List.append_nil]
        decide
      · rw [hcat, List.concat_eq_append, ← List.append_assoc]
        apply pyRstripSlash_of_last_not_slash
        have hcmem : c ∈ rest.data := by rw [hcat, List.concat_eq_append]; simp
        exact fun hh => hs c hcmem hh
    have h3 : pyReplace (String.mk (("https://api." : String).data ++ rest.data))
        "api." "upload." =
        String.mk (("https://upload." : String).data ++ rest.data) := by
      rw [pyReplace_eq_of_data _ _ _ 'a' ("pi." : String).data rfl]
      congr 1
      rw [show (String.mk (("https://api." : String).data ++ rest.data)).data =
          ("https://" : String).data ++ (("api." : String).data ++ rest.data) by simp]
      rw [replaceAllAux_skip _ _ _ _ _ (by decide)]
      rw [show ("api." : String).data = 'a' :: ("pi." : String).data from rfl]
      rw [replaceAllAux_consume]
      rw [show rest.data = rest.data ++ ([] : List Char) from (List.append_nil _).symm]
      rw [replaceAllAux_skip _ _ _ _ _ (fun d hd => ha d (by simpa using hd))]
      simp [replaceAllAux]
    show pyReplace (pyRstripSlash (pyReplace ("https://api." ++ rest ++ "/api/v3/")
        "/api/v3/" "")) "api." "upload." ++ "/api/v3/file-upload" =
      "https://upload." ++ rest ++ "/api/v3/file-upload"
    rw [h1, h2, h3]
    apply stringDataEq
    simp
  · simp [upload_url_of, BASE_API_ENDPOINT, pyReplace, pyRstripSlash, replaceAllAux, matchesAt]

/-- Witness for C9 (amended): a host part sharing no character with the
patterns, rewritten as claimed. -/
theorem c9_upload_url_amended_witness :
    upload_url_of ("https://api." ++ "shoq" ++ "/api/v3/") =
      "https://upload." ++ "shoq" ++ "/api/v3/file-upload" :=
  c9_upload_url_amended.1 "shoq" (by decide)
